import Mathlib

/-!
Verification of the AIPsych crisis-detection and response-gating pipeline
and of the server request handlers.

The server handlers (`askPsychologist`, `streamTextToSpeech`, the
`/api/psych` and `/api/psych-stream` routes) and the script detector
`isMalayalam` are embedded directly from `server/index.js` and
`ui/src/utils/audioUtils.ts`.  The gating pipeline itself (normalizer,
keyword matcher, classifier fail-safe, session latch, instant table)
exists only in repository snapshots that are not part of this tree, so
those components are modelled from the specification text, as marked on
each definition.
-/

namespace AIPsych

/-- Role of a chat message, as used by the session history and the
provider message lists. -/
inductive Role where
  | user
  | assistant
  | system
deriving DecidableEq

/-- Whitespace test used by the normalizer and by trimming (space, tab,
newline, carriage return). -/
def isWSChar (c : Char) : Bool :=
  c = ' ' || c = '\t' || c = '\n' || c = '\r'

/-- ASCII lowercasing of a single character, as JavaScript
`toLowerCase` acts on the Latin letters the normalizer keeps. -/
def toLowerChar (c : Char) : Char :=
  if 'A' ≤ c ∧ c ≤ 'Z' then Char.ofNat (c.toNat + 32) else c

/-- Test for the Malayalam Unicode block U+0D00 to U+0D7F, embedded from
the character class of the regex in `audioUtils.ts` (`isMalayalam`). -/
def inMalayalamRange (c : Char) : Bool :=
  decide (0xD00 ≤ c.toNat ∧ c.toNat ≤ 0xD7F)

/-- Modelled from the spec: the normalizer keeps only lowercase Latin
letters, characters of the Malayalam block, and whitespace. -/
def isAllowedChar (c : Char) : Bool :=
  ('a' ≤ c && c ≤ 'z') || inMalayalamRange c || isWSChar c

/-- Modelled from the spec: collapse of whitespace runs to single
spaces; the flag records whether the previous kept character was
whitespace (initially true, which also trims leading whitespace). -/
def squeezeWS : Bool → List Char → List Char
  | _, [] => []
  | prevWS, c :: rest =>
    if isWSChar c then
      if prevWS then squeezeWS true rest else ' ' :: squeezeWS true rest
    else
      c :: squeezeWS false rest

/-- Removal of trailing whitespace characters. -/
def dropTrailingWS (l : List Char) : List Char :=
  (l.reverse.dropWhile isWSChar).reverse

/-- Modelled from the spec: the Normalizer (section 4.1) — lowercase,
strip characters outside lowercase Latin, the Malayalam block and
whitespace, collapse whitespace runs to single spaces, trim.  The
snapshot holding the source normalizer is not in this tree. -/
def normalize (s : String) : String :=
  ⟨dropTrailingWS (squeezeWS true ((s.data.map toLowerChar).filter isAllowedChar))⟩

/-- Test whether the pattern occurs at the head of the haystack. -/
def matchAt : List Char → List Char → Bool
  | [], _ => true
  | _ :: _, [] => false
  | p :: ps, h :: hs => p = h && matchAt ps hs

/-- Substring occurrence test: the pattern occurs at some offset of the
haystack. -/
def containsSub (pat hay : List Char) : Bool :=
  (List.range (hay.length + 1)).any fun i => matchAt pat (hay.drop i)

/-- Modelled from the spec: the fixed multilingual crisis phrase list
covering English, Malayalam script and romanized Malayalam (the concrete
list of the source snapshot is unavailable; the entries given as
concrete scenarios in the spec are included). -/
def crisisPhrases : List String :=
  ["kill myself", "suicide", "end my life", "മരിക്കാൻ", "marikkan"]

/-- Modelled from the spec: the Keyword Crisis Matcher (section 4.2) —
true when any listed phrase occurs as a substring of the normalized
text. -/
def keywordTriggered (raw : String) : Bool :=
  crisisPhrases.any fun p => containsSub p.data (normalize raw).data

/-- Script detector embedded from `ui/src/utils/audioUtils.ts`: the
regex test for any character in the Malayalam Unicode range U+0D00 to
U+0D7F. -/
def isMalayalam (t : String) : Bool :=
  t.data.any inMalayalamRange

/-- Modelled from the spec: the fixed English safety script (the exact
wording of the source snapshot is unavailable). -/
def englishSafetyScript : String :=
  "You are not alone. If you are thinking about harming yourself, please reach out to a trained crisis counselor right now."

/-- Modelled from the spec: the fixed Malayalam safety script (the exact
wording of the source snapshot is unavailable). -/
def malayalamSafetyScript : String :=
  "നിങ്ങൾ ഒറ്റയ്ക്കല്ല. ദയവായി ഉടൻ ഒരു പ്രതിസന്ധി സഹായ കേന്ദ്രവുമായി ബന്ധപ്പെടുക."

/-- Modelled from the spec: the Crisis Response Selector (section 4.4) —
the Malayalam script when the utterance contains any Malayalam-range
character, else the English one; it reads only the text, never a
declared language preference. -/
def selectSafetyScript (t : String) : String :=
  if isMalayalam t then malayalamSafetyScript else englishSafetyScript

/-- Modelled from the spec: the fixed greeting/acknowledgement table of
the InstantResponse shortcut; the spec gives the concrete pair mapping
the normalized input "hi" to "Hi there.". -/
def instantResponses : List (String × String) :=
  [("hi", "Hi there."), ("hello", "Hi there.")]

/-- Modelled from the spec: the instant-response lookup on the
normalized utterance. -/
def instantReplyFor (raw : String) : Option String :=
  instantResponses.lookup (normalize raw)

/-- Modelled from the spec: the AI crisis classifier verdict — true only
on an exact "CRISIS" response after trimming, and false on any error
(the fail-safe policy of section 4.3). -/
def classifierVerdict : Except String String → Bool
  | .error _ => false
  | .ok s => (⟨dropTrailingWS (s.data.dropWhile isWSChar)⟩ : String) = "CRISIS"

/-- Modelled from the spec: per-connection session state — bounded turn
history plus the crisis latch (section 4.6). -/
structure Session where
  history : List (Role × String)
  crisisAlreadySurfaced : Bool
deriving DecidableEq

/-- Fresh session created on connection open: empty history, latch
unset. -/
def emptySession : Session := ⟨[], false⟩

/-- Last `n` elements of a list (drop all before them). -/
def lastN (n : Nat) (l : List α) : List α :=
  l.drop (l.length - n)

/-- Modelled from the spec: `appendTurn` pushes one entry and truncates
the history to the last 4 entries, dropping the oldest first. -/
def appendTurn (s : Session) (r : Role) (c : String) : Session :=
  { s with history := lastN 4 (s.history ++ [(r, c)]) }

/-- Modelled from the spec: `markCrisisSurfaced` sets the latch;
idempotent and irreversible for the lifetime of the session. -/
def markCrisisSurfaced (s : Session) : Session :=
  { s with crisisAlreadySurfaced := true }

/-- Modelled from the spec: `hasCrisisSurfaced` reads the latch. -/
def hasCrisisSurfaced (s : Session) : Bool :=
  s.crisisAlreadySurfaced

/-- Modelled from the spec: the four outbound message kinds of
section 6.  A turn outcome carries exactly one such message, so the
pipeline emits exactly one message per turn by construction and no
error constructor exists that could reach the user. -/
inductive Outbound where
  | crisis (text : String)
  | instant (text : String)
  | reply (text : String)
  | fallback (text : String)
deriving DecidableEq

/-- Test whether an outbound message is a crisis safety script. -/
def isCrisisMsg : Outbound → Bool
  | .crisis _ => true
  | _ => false

/-- Modelled from the spec: the fixed default fallback message delivered
when the general reply call fails and no crisis was detected (the exact
wording of the source snapshot is unavailable; the in-tree default reply
text of `askPsychologist` is used). -/
def defaultFallbackText : String :=
  "I\x27m here with you. Let me think about that..."

/-- Result of one turn of the gating pipeline: the single delivered
message, the successor session, and whether the AI classifier and the
general reply call were dispatched. -/
structure TurnOutcome where
  message : Outbound
  session : Session
  classifierCalled : Bool
  replyCalled : Bool
deriving DecidableEq

/-- Modelled from the spec: the model-dispatch state of section 4.5 —
classifier and reply call issued concurrently; on reconciliation, a
classifier CRISIS verdict with the latch still unset discards the reply
and delivers the safety script, otherwise the generated reply is
delivered and the user/assistant turns are appended to the bounded
history; a failed reply call with no crisis yields the fixed fallback. -/
def modelDispatch (s : Session) (raw : String)
    (classifierResult replyResult : Except String String) : TurnOutcome :=
  if classifierVerdict classifierResult && !s.crisisAlreadySurfaced then
    ⟨.crisis (selectSafetyScript raw), markCrisisSurfaced s, true, true⟩
  else
    match replyResult with
    | .ok r => ⟨.reply r, appendTurn (appendTurn s .user raw) .assistant r, true, true⟩
    | .error _ => ⟨.fallback defaultFallbackText, s, true, true⟩

/-- Modelled from the spec: one turn of the Gating Pipeline state
machine (section 4.5).  The keyword check runs first; a keyword trigger
with the latch unset short-circuits to the safety script with no
provider call; a non-trigger with an instant-table hit delivers the
canned reply; every other case goes to model dispatch. -/
def handleUserUtterance (s : Session) (raw : String)
    (classifierResult replyResult : Except String String) : TurnOutcome :=
  if keywordTriggered raw then
    if s.crisisAlreadySurfaced then
      modelDispatch s raw classifierResult replyResult
    else
      ⟨.crisis (selectSafetyScript raw), markCrisisSurfaced s, false, false⟩
  else
    match instantReplyFor raw with
    | some t => ⟨.instant t, s, false, false⟩
    | none => modelDispatch s raw classifierResult replyResult

/-- Input of one turn: raw text plus the outcomes of the two provider
calls for that turn. -/
abbrev TurnInput : Type := String × Except String String × Except String String

/-- Session after a sequence of turns processed in arrival order. -/
def runTurns (s : Session) (ts : List TurnInput) : Session :=
  ts.foldl (fun acc t => (handleUserUtterance acc t.1 t.2.1 t.2.2).session) s

/-- Session after a sequence of raw history appends. -/
def appendAll (s : Session) (es : List (Role × String)) : Session :=
  es.foldl (fun acc e => appendTurn acc e.1 e.2) s

/-- System prompt of `server/index.js` (`THERAPIST_PROMPT`). -/
def therapistPrompt : String :=
  "You are a supportive psychological companion. Be warm, non-judgmental, and genuine. Listen actively. Ask clarifying questions. Use short paragraphs (2-3 sentences). Reflect feelings: \"It sounds like...\", \"I hear...\". If user mentions crisis (self-harm, suicide), say you cannot handle emergencies and strongly recommend contacting local crisis hotlines. You are NOT a licensed therapist. If user speaks Malayalam, respond in Malayalam. Otherwise, respond in English."

/-- One provider chat message: role plus content. -/
structure ChatMessage where
  role : Role
  content : String
deriving DecidableEq

/-- Message list sent by `askPsychologist` in `server/index.js` to the
chat completion call: the fixed system prompt and the current user text,
and nothing else. -/
def askPsychologistMessages (userText : String) : List ChatMessage :=
  [⟨.system, therapistPrompt⟩, ⟨.user, userText⟩]

/-- JavaScript string trim on both ends, as `fullReply.trim()` in
`server/index.js`. -/
def jsTrim (s : String) : String :=
  ⟨dropTrailingWS (s.data.dropWhile isWSChar)⟩

/-- Aggregation loop of `askPsychologist`: each streamed chunk carries
an optional content delta (`chunk.choices?.[0]?.delta?.content`), and
the non-absent deltas are concatenated in order. -/
def aggregateDeltas (ds : List (Option String)) : String :=
  ds.foldl (fun acc d => acc ++ d.getD "") ""

/-- Default reply of `askPsychologist` when the aggregated stream trims
to the empty string. -/
def defaultReplyText : String :=
  "I\x27m here with you. Let me think about that..."

/-- Reply returned by `askPsychologist` on a successful stream: the
trimmed aggregation when non-blank, else the fixed default. -/
def askPsychologistReply (ds : List (Option String)) : String :=
  if jsTrim (aggregateDeltas ds) = "" then defaultReplyText
  else jsTrim (aggregateDeltas ds)

/-- Outcome of the chat completion provider call: the list of streamed
deltas on success, or an error message. -/
abbrev ProviderResult : Type := Except String (List (Option String))

/-- Embedding of `askPsychologist` in `server/index.js`: on a successful
stream the aggregated, trimmed (or default) reply; on a provider error
the catch block logs and rethrows, so the error propagates to the
caller. -/
def askPsychologist : ProviderResult → Except String String
  | .ok ds => .ok (askPsychologistReply ds)
  | .error e => .error e

/-- JavaScript value of the `message` field of a request body;
`undefined` stands for a missing field. -/
inductive JsValue where
  | str (s : String)
  | num (n : Int)
  | boolean (b : Bool)
  | null
  | undefined
deriving DecidableEq

/-- JavaScript truthiness of a `JsValue` (the `!message` test). -/
def jsTruthy : JsValue → Bool
  | .str s => s ≠ ""
  | .num n => n ≠ 0
  | .boolean b => b
  | .null => false
  | .undefined => false

/-- The `typeof message === "string"` test. -/
def jsIsString : JsValue → Bool
  | .str _ => true
  | _ => false

/-- Validation guard of the `/api/psych` and `/api/psych-stream` routes:
`!message || typeof message !== "string"` rejects the request. -/
def isValidMessage (v : JsValue) : Bool :=
  jsTruthy v && jsIsString v

/-- HTTP response of the `/api/psych` route: a 200 reply body, or an
error body with status and error text. -/
inductive ApiResponse where
  | replyBody (reply : String)
  | errorBody (status : Nat) (error : String)
deriving DecidableEq

/-- One handled `/api/psych` request: the response plus whether the
model call was issued. -/
structure ApiCall where
  response : ApiResponse
  modelCalled : Bool
deriving DecidableEq

/-- Embedding of the `/api/psych` route of `server/index.js`: invalid
message gives 400 before any model call; a provider error is caught and
answered with the fixed 500 body; otherwise the reply is returned. -/
def apiPsych (v : JsValue) (p : ProviderResult) : ApiCall :=
  if isValidMessage v then
    match askPsychologist p with
    | .ok r => ⟨.replyBody r, true⟩
    | .error _ => ⟨.errorBody 500 "Something went wrong", true⟩
  else
    ⟨.errorBody 400 "message is required", false⟩

/-- Chunking loop of `streamTextToSpeech` in `server/index.js`, with the
loop index replaced by structural recursion on a fuel equal to the
buffer length (the loop advances by 4096 ≥ 1 bytes per iteration, so the
fuel never runs out). -/
def chunkGo : Nat → List Nat → List (List Nat)
  | _, [] => []
  | 0, _ :: _ => []
  | fuel + 1, b :: rest =>
    (b :: rest).take 4096 :: chunkGo fuel ((b :: rest).drop 4096)

/-- Embedding of `streamTextToSpeech`: the audio buffer is yielded as
successive slices of at most 4096 bytes. -/
def chunkBuffer (buf : List Nat) : List (List Nat) :=
  chunkGo buf.length buf

/-- One NDJSON write of the `/api/psych-stream` route: the full reply
text, or one base64 audio chunk. -/
inductive StreamWrite where
  | text (s : String)
  | audio (chunk : List Nat)
deriving DecidableEq

/-- Outcome of the `/api/psych-stream` route: an error body sent before
any write, or the NDJSON stream of writes with a flag telling whether
the stream completed (false when a TTS error ended it early after the
text write). -/
inductive StreamOutcome where
  | errorResponse (status : Nat) (error : String)
  | stream (writes : List StreamWrite) (completed : Bool)
deriving DecidableEq

/-- One handled `/api/psych-stream` request: the outcome plus whether
the model call was issued. -/
structure StreamCall where
  outcome : StreamOutcome
  modelCalled : Bool
deriving DecidableEq

/-- Embedding of the `/api/psych-stream` route of `server/index.js`:
invalid message gives 400 before any model call; a reply failure is
caught and answered with the fixed 500 body; on success the text line is
written first and then the TTS audio chunks; a TTS failure after the
text write just ends the stream. -/
def apiPsychStream (v : JsValue) (p : ProviderResult)
    (tts : Except String (List Nat)) : StreamCall :=
  if isValidMessage v then
    match askPsychologist p with
    | .error _ => ⟨.errorResponse 500 "Something went wrong", true⟩
    | .ok r =>
      match tts with
      | .ok buf => ⟨.stream (.text r :: (chunkBuffer buf).map .audio) true, true⟩
      | .error _ => ⟨.stream [.text r] false, true⟩
  else
    ⟨.errorResponse 400 "message is required", false⟩

/-! Helper lemmas about the gating pipeline. -/

/-- The crisis field of a session is unchanged by a history append. -/
theorem appendTurn_crisis (s : Session) (r : Role) (c : String) :
    (appendTurn s r c).crisisAlreadySurfaced = s.crisisAlreadySurfaced := rfl

/-- One pipeline turn never clears a set latch. -/
theorem handle_latch_mono (s : Session) (raw : String)
    (cr rr : Except String String) (h : s.crisisAlreadySurfaced = true) :
    (handleUserUtterance s raw cr rr).session.crisisAlreadySurfaced = true := by
  cases hk : keywordTriggered raw <;>
    cases hi : instantReplyFor raw <;>
      cases rr <;>
        simp [handleUserUtterance, modelDispatch, hk, hi, h, appendTurn,
          markCrisisSurfaced]

/-- With the latch set, the delivered message of a turn is never a
crisis safety script. -/
theorem handle_no_crisis_when_latched (s : Session) (raw : String)
    (cr rr : Except String String) (h : s.crisisAlreadySurfaced = true) :
    isCrisisMsg (handleUserUtterance s raw cr rr).message = false := by
  cases hk : keywordTriggered raw <;>
    cases hi : instantReplyFor raw <;>
      cases rr <;>
        simp [handleUserUtterance, modelDispatch, hk, hi, h, isCrisisMsg]

/-- Whenever a turn delivers a crisis safety script, the successor
session has the latch set. -/
theorem handle_crisis_sets_latch (s : Session) (raw : String)
    (cr rr : Except String String)
    (h : isCrisisMsg (handleUserUtterance s raw cr rr).message = true) :
    (handleUserUtterance s raw cr rr).session.crisisAlreadySurfaced = true := by
  cases hk : keywordTriggered raw <;>
    cases hl : s.crisisAlreadySurfaced <;>
      cases hi : instantReplyFor raw <;>
        cases hv : classifierVerdict cr <;>
          cases rr <;>
            simp_all [handleUserUtterance, modelDispatch, isCrisisMsg,
              appendTurn, markCrisisSurfaced]

/-- A set latch survives any sequence of turns. -/
theorem runTurns_latch_mono (ts : List TurnInput) :
    ∀ s : Session, s.crisisAlreadySurfaced = true →
      (runTurns s ts).crisisAlreadySurfaced = true := by
  induction ts with
  | nil => intro s h; exact h
  | cons t rest ih =>
    intro s h
    exact ih _ (handle_latch_mono s t.1 t.2.1 t.2.2 h)

/-! Claim theorems. -/

/-- Claim C1: an utterance whose normalized text contains a listed crisis
phrase, arriving with the session latch still unset, short-circuits the
turn: the single outbound message is the crisis safety script for the
detected script, the latch is set, and neither the AI classifier nor the
general reply call is dispatched. -/
theorem crisis_keyword_short_circuit (s : Session) (raw : String)
    (cr rr : Except String String)
    (hk : keywordTriggered raw = true) (hl : s.crisisAlreadySurfaced = false) :
    handleUserUtterance s raw cr rr =
      ⟨Outbound.crisis (selectSafetyScript raw), markCrisisSurfaced s, false, false⟩ := by
  simp [handleUserUtterance, hk, hl]

/-- Witness for C1: the spec scenarios "I want to kill myself" (English
script) and the Malayalam crisis phrase (Malayalam script), both on a
fresh session, with the provider calls left erroring to show they are
never consulted. -/
theorem crisis_keyword_short_circuit_witness :
    keywordTriggered "I want to kill myself" = true ∧
    emptySession.crisisAlreadySurfaced = false ∧
    handleUserUtterance emptySession "I want to kill myself"
        (Except.error "never called") (Except.error "never called") =
      ⟨Outbound.crisis englishSafetyScript, markCrisisSurfaced emptySession, false, false⟩ ∧
    keywordTriggered "മരിക്കാൻ തോന്നുന്നു" = true ∧
    handleUserUtterance emptySession "മരിക്കാൻ തോന്നുന്നു"
        (Except.error "never called") (Except.error "never called") =
      ⟨Outbound.crisis malayalamSafetyScript, markCrisisSurfaced emptySession, false, false⟩ := by
  refine ⟨by decide, by decide, ?_, by decide, ?_⟩
  · rw [crisis_keyword_short_circuit emptySession "I want to kill myself"
      (Except.error "never called") (Except.error "never called") (by decide) (by decide)]
    decide
  · rw [crisis_keyword_short_circuit emptySession "മരിക്കാൻ തോന്നുന്നു"
      (Except.error "never called") (Except.error "never called") (by decide) (by decide)]
    decide

/-- Claim C2: the crisis latch is set by the first crisis verdict and is never
reset: `markCrisisSurfaced` sets it, is idempotent and irreversible; a
latched session never receives a second crisis safety script; any turn
that delivers a crisis script leaves the latch set; and a set latch
survives any further sequence of turns. -/
theorem crisis_latch_invariant (s : Session) (raw : String)
    (cr rr : Except String String) (ts : List TurnInput) :
    (markCrisisSurfaced s).crisisAlreadySurfaced = true ∧
    markCrisisSurfaced (markCrisisSurfaced s) = markCrisisSurfaced s ∧
    (s.crisisAlreadySurfaced = true →
      (handleUserUtterance s raw cr rr).session.crisisAlreadySurfaced = true) ∧
    (s.crisisAlreadySurfaced = true →
      isCrisisMsg (handleUserUtterance s raw cr rr).message = false) ∧
    (isCrisisMsg (handleUserUtterance s raw cr rr).message = true →
      (handleUserUtterance s raw cr rr).session.crisisAlreadySurfaced = true) ∧
    (s.crisisAlreadySurfaced = true →
      (runTurns s ts).crisisAlreadySurfaced = true) := by
  exact ⟨rfl, rfl, handle_latch_mono s raw cr rr,
    handle_no_crisis_when_latched s raw cr rr,
    handle_crisis_sets_latch s raw cr rr,
    runTurns_latch_mono ts s⟩

/-- Witness for C2: a latched session ignores a second crisis phrase and
stays latched over further turns, and a fresh session that delivers a
crisis script ends the turn latched. -/
theorem crisis_latch_invariant_witness :
    (Session.mk [] true).crisisAlreadySurfaced = true ∧
    isCrisisMsg (handleUserUtterance ⟨[], true⟩ "I want to kill myself"
      (Except.error "e") (Except.error "e")).message = false ∧
    (runTurns ⟨[], true⟩
      [("kill myself please", Except.error "e", Except.error "e")]).crisisAlreadySurfaced = true ∧
    (handleUserUtterance emptySession "I want to kill myself"
      (Except.error "e") (Except.error "e")).session.crisisAlreadySurfaced = true := by
  refine ⟨by decide, ?_, ?_, ?_⟩
  · exact (crisis_latch_invariant ⟨[], true⟩ "I want to kill myself"
      (Except.error "e") (Except.error "e") []).2.2.2.1 (by decide)
  · exact (crisis_latch_invariant ⟨[], true⟩ "kill myself please"
      (Except.error "e") (Except.error "e")
      [("kill myself please", Except.error "e", Except.error "e")]).2.2.2.2.2 (by decide)
  · exact (crisis_latch_invariant emptySession "I want to kill myself"
      (Except.error "e") (Except.error "e") []).2.2.2.2.1 (by decide)

/-- Claim C3: on an utterance the keyword matcher does not trigger on (and no
instant-table hit, so the classifier is actually dispatched), a
classifier failure resolves to a non-crisis verdict and the turn is a
normal reply attempt: the reply call is dispatched, the message is never
a crisis script (and the outcome type has no error constructor, so no
user-visible error exists), and it is the generated reply when the reply
call succeeds, the fixed fallback when it fails. -/
theorem classifier_failure_fail_safe (s : Session) (raw e : String)
    (rr : Except String String)
    (hk : keywordTriggered raw = false) (hi : instantReplyFor raw = none) :
    classifierVerdict (Except.error e) = false ∧
    (handleUserUtterance s raw (Except.error e) rr).replyCalled = true ∧
    isCrisisMsg (handleUserUtterance s raw (Except.error e) rr).message = false ∧
    (∀ r, rr = Except.ok r →
      (handleUserUtterance s raw (Except.error e) rr).message = Outbound.reply r) ∧
    (∀ e2, rr = Except.error e2 →
      (handleUserUtterance s raw (Except.error e) rr).message =
        Outbound.fallback defaultFallbackText) := by
  cases rr <;>
    simp [handleUserUtterance, modelDispatch, classifierVerdict, hk, hi, isCrisisMsg]

/-- Witness for C3: a non-crisis, non-greeting utterance with a failed
classifier call still yields the generated reply. -/
theorem classifier_failure_fail_safe_witness :
    keywordTriggered "I feel a bit low today" = false ∧
    instantReplyFor "I feel a bit low today" = none ∧
    (handleUserUtterance emptySession "I feel a bit low today"
      (Except.error "ECONNRESET") (Except.ok "That sounds heavy.")).message =
      Outbound.reply "That sounds heavy." ∧
    isCrisisMsg (handleUserUtterance emptySession "I feel a bit low today"
      (Except.error "ECONNRESET") (Except.ok "That sounds heavy.")).message = false := by
  refine ⟨by decide, by decide, ?_, ?_⟩
  · exact (classifier_failure_fail_safe emptySession "I feel a bit low today"
      "ECONNRESET" (Except.ok "That sounds heavy.") (by decide) (by decide)).2.2.2.1
      "That sounds heavy." rfl
  · exact (classifier_failure_fail_safe emptySession "I feel a bit low today"
      "ECONNRESET" (Except.ok "That sounds heavy.") (by decide) (by decide)).2.2.1

/-- Claim C6: script detection holds exactly when some character of the text
lies in the Malayalam Unicode range U+0D00 to U+0D7F; if so the
Malayalam safety script is selected, else the English one (the selector
reads nothing but the text); in particular a nonempty all-Malayalam
utterance gets the Malayalam script and one with no Malayalam-range
character gets the English script. -/
theorem script_detection_malayalam_range (t : String) :
    (isMalayalam t = true ↔ ∃ c ∈ t.data, 0xD00 ≤ c.toNat ∧ c.toNat ≤ 0xD7F) ∧
    (isMalayalam t = true → selectSafetyScript t = malayalamSafetyScript) ∧
    (isMalayalam t = false → selectSafetyScript t = englishSafetyScript) ∧
    ((∀ c ∈ t.data, ¬(0xD00 ≤ c.toNat ∧ c.toNat ≤ 0xD7F)) →
      selectSafetyScript t = englishSafetyScript) ∧
    (t.data ≠ [] → (∀ c ∈ t.data, 0xD00 ≤ c.toNat ∧ c.toNat ≤ 0xD7F) →
      selectSafetyScript t = malayalamSafetyScript) := by
  have hiff : isMalayalam t = true ↔
      ∃ c ∈ t.data, 0xD00 ≤ c.toNat ∧ c.toNat ≤ 0xD7F := by
    simp [isMalayalam, inMalayalamRange, List.any_eq_true]
  refine ⟨hiff, ?_, ?_, ?_, ?_⟩
  · intro h; simp [selectSafetyScript, h]
  · intro h; simp [selectSafetyScript, h]
  · intro h
    have hm : isMalayalam t = false := by
      cases hb : isMalayalam t
      · rfl
      · obtain ⟨c, hc, hr⟩ := hiff.mp hb
        exact absurd hr (h c hc)
    simp [selectSafetyScript, hm]
  · intro hne hall
    have hm : isMalayalam t = true := by
      cases hd : t.data with
      | nil => exact absurd hd hne
      | cons c cs => exact hiff.mpr ⟨c, by simp [hd], hall c (by simp [hd])⟩
    simp [selectSafetyScript, hm]

/-- Witness for C6: an all-Malayalam utterance selects the Malayalam
script and a plain Latin one the English script. -/
theorem script_detection_malayalam_range_witness :
    isMalayalam "മരിക്കാൻ" = true ∧
    selectSafetyScript "മരിക്കാൻ" = malayalamSafetyScript ∧
    isMalayalam "hello" = false ∧
    selectSafetyScript "hello" = englishSafetyScript := by
  refine ⟨by decide, ?_, by decide, ?_⟩
  · exact (script_detection_malayalam_range "മരിക്കാൻ").2.1 (by decide)
  · exact (script_detection_malayalam_range "hello").2.2.1 (by decide)

/-- Counterexample for C4: on a valid message with a failing reply call, the
`/api/psych` handler of `server/index.js` answers with the HTTP 500
error body "Something went wrong" — an error response surfaced to the
transport layer — and not with a fallback-kind message carrying the
fixed default text. -/
theorem reply_failure_fallback_cex :
    (apiPsych (JsValue.str "hello") (Except.error "ECONNRESET")).response =
      ApiResponse.errorBody 500 "Something went wrong" ∧
    (apiPsych (JsValue.str "hello") (Except.error "ECONNRESET")).response ≠
      ApiResponse.replyBody defaultFallbackText := by
  exact ⟨by decide, by decide⟩

/-- Amended C4: when the reply call fails on a valid message, the
handler catches the error and answers with the fixed, sanitized 500
error body "Something went wrong", independent of the provider error
text — so no raw error reaches the user, but the answer is an error
response rather than a fallback message. -/
theorem reply_failure_sanitized_error (v : JsValue) (e : String)
    (hv : isValidMessage v = true) :
    apiPsych v (Except.error e) =
      ⟨ApiResponse.errorBody 500 "Something went wrong", true⟩ := by
  simp [apiPsych, askPsychologist, hv]

/-- Witness for the amended C4: a concrete valid message and a concrete
provider error text that never appears in the response. -/
theorem reply_failure_sanitized_error_witness :
    isValidMessage (JsValue.str "hello") = true ∧
    apiPsych (JsValue.str "hello") (Except.error "socket hang up") =
      ⟨ApiResponse.errorBody 500 "Something went wrong", true⟩ :=
  ⟨by decide,
    reply_failure_sanitized_error (JsValue.str "hello") "socket hang up" (by decide)⟩

/-- Counterexample for C5: the handlers of `server/index.js` do not emit one
of the four chat kinds per turn — on a provider failure `/api/psych`
emits an HTTP 500 error body, and on success `/api/psych-stream` emits a
text write followed by audio writes (two outbound messages already for a
one-chunk audio buffer). -/
theorem single_outbound_kind_cex :
    (apiPsych (JsValue.str "hello") (Except.error "boom")).response =
      ApiResponse.errorBody 500 "Something went wrong" ∧
    (apiPsychStream (JsValue.str "hello") (Except.ok [some "Hey"])
        (Except.ok [0, 1, 2])).outcome =
      StreamOutcome.stream [StreamWrite.text "Hey", StreamWrite.audio [0, 1, 2]] true := by
  exact ⟨by decide, by decide⟩

/-- Amended C5: every `/api/psych` response is a reply body or one of
the two fixed sanitized error bodies (400 "message is required", 500
"Something went wrong"), so no raw provider error text ever reaches the
user; and every `/api/psych-stream` stream begins with exactly one text
write holding the generated reply. -/
theorem outbound_sanitized_responses (v : JsValue) (p : ProviderResult)
    (t : Except String (List Nat)) :
    ((apiPsych v p).response = ApiResponse.errorBody 400 "message is required" ∨
     (apiPsych v p).response = ApiResponse.errorBody 500 "Something went wrong" ∨
     ∃ ds, p = Except.ok ds ∧
       (apiPsych v p).response = ApiResponse.replyBody (askPsychologistReply ds)) ∧
    (∀ ws done, (apiPsychStream v p t).outcome = StreamOutcome.stream ws done →
      ∃ ds rest, p = Except.ok ds ∧
        ws = StreamWrite.text (askPsychologistReply ds) :: rest) := by
  constructor
  · by_cases hv : isValidMessage v = true
    · cases p with
      | ok ds =>
        right; right
        exact ⟨ds, rfl, by simp [apiPsych, askPsychologist, hv]⟩
      | error e =>
        right; left
        simp [apiPsych, askPsychologist, hv]
    · left
      rw [Bool.not_eq_true] at hv
      simp [apiPsych, hv]
  · intro ws done h
    by_cases hv : isValidMessage v = true
    · cases p with
      | error e => simp [apiPsychStream, askPsychologist, hv] at h
      | ok ds =>
        cases t with
        | ok buf =>
          simp only [apiPsychStream, askPsychologist, hv, if_true] at h
          refine ⟨ds, (chunkBuffer buf).map StreamWrite.audio, rfl, ?_⟩
          cases h
          rfl
        | error e2 =>
          simp only [apiPsychStream, askPsychologist, hv, if_true] at h
          refine ⟨ds, [], rfl, ?_⟩
          cases h
          rfl
    · rw [Bool.not_eq_true] at hv
      simp [apiPsychStream, hv] at h

/-- Witness for the amended C5: a concrete successful stream whose first
write is the single text message. -/
theorem outbound_sanitized_responses_witness :
    (apiPsychStream (JsValue.str "hi") (Except.ok [some "Hey"])
        (Except.ok [7])).outcome =
      StreamOutcome.stream [StreamWrite.text "Hey", StreamWrite.audio [7]] true ∧
    (∃ ds rest, (Except.ok [some "Hey"] : ProviderResult) = Except.ok ds ∧
      [StreamWrite.text "Hey", StreamWrite.audio [7]] =
        StreamWrite.text (askPsychologistReply ds) :: rest) := by
  refine ⟨by decide, ?_⟩
  exact (outbound_sanitized_responses (JsValue.str "hi") (Except.ok [some "Hey"])
    (Except.ok [7])).2 [StreamWrite.text "Hey", StreamWrite.audio [7]] true (by decide)

/-- Counterexample for C7: the reply call of `server/index.js`
(`askPsychologist`) sends exactly two messages — the fixed system prompt
and the current utterance — so no session history is passed to the
general-purpose reply call, for any session state. -/
theorem history_passed_to_reply_cex :
    askPsychologistMessages "I feel sad" =
      [⟨Role.system, therapistPrompt⟩, ⟨Role.user, "I feel sad"⟩] ∧
    (askPsychologistMessages "I feel sad").length = 2 := ⟨rfl, rfl⟩

/-- Amended C7: the session history (modelled from the spec) is bounded
to the 4 most recent entries with the oldest evicted first — after 10
sequential appends it equals the last 4 appended — but the
general-purpose reply call of this snapshot receives only the fixed
system prompt and the current utterance, never the history. -/
theorem session_history_bounded (s : Session) (r : Role) (c : String)
    (p1 p2 p3 p4 : Role × String) (f : Bool)
    (e1 e2 e3 e4 e5 e6 e7 e8 e9 e10 : Role × String) (u : String) :
    (appendTurn s r c).history.length ≤ 4 ∧
    (appendTurn ⟨[p1, p2, p3, p4], f⟩ r c).history = [p2, p3, p4, (r, c)] ∧
    (appendAll emptySession
      [e1, e2, e3, e4, e5, e6, e7, e8, e9, e10]).history = [e7, e8, e9, e10] ∧
    askPsychologistMessages u = [⟨Role.system, therapistPrompt⟩, ⟨Role.user, u⟩] := by
  refine ⟨?_, ?_, ?_, rfl⟩
  · simp only [appendTurn, lastN, List.length_drop, List.length_append]
    omega
  · simp [appendTurn, lastN]
  · simp [appendAll, appendTurn, lastN, emptySession]

/-- Claim C8: a missing, empty, or non-string message is rejected by both text
routes with the 400 error body before any model call is issued. -/
theorem invalid_message_rejected (v : JsValue) (p : ProviderResult)
    (t : Except String (List Nat)) (hv : isValidMessage v = false) :
    apiPsych v p = ⟨ApiResponse.errorBody 400 "message is required", false⟩ ∧
    apiPsychStream v p t =
      ⟨StreamOutcome.errorResponse 400 "message is required", false⟩ := by
  constructor <;> simp [apiPsych, apiPsychStream, hv]

/-- Witness for C8: a missing message, an empty string and a number are
all rejected without a model call. -/
theorem invalid_message_rejected_witness :
    isValidMessage JsValue.undefined = false ∧
    apiPsych JsValue.undefined (Except.error "e") =
      ⟨ApiResponse.errorBody 400 "message is required", false⟩ ∧
    isValidMessage (JsValue.str "") = false ∧
    apiPsychStream (JsValue.str "") (Except.error "e") (Except.error "e") =
      ⟨StreamOutcome.errorResponse 400 "message is required", false⟩ ∧
    isValidMessage (JsValue.num 3) = false := by
  refine ⟨by decide, ?_, by decide, ?_, by decide⟩
  · exact (invalid_message_rejected JsValue.undefined (Except.error "e")
      (Except.error "e") (by decide)).1
  · exact (invalid_message_rejected (JsValue.str "") (Except.error "e")
      (Except.error "e") (by decide)).2

/-- Claim C9: a successful `askPsychologist` call returns a non-empty reply:
the trimmed delta concatenation when that is non-blank, else the fixed
default string. -/
theorem reply_nonblank_or_default (ds : List (Option String)) (r : String)
    (h : askPsychologist (Except.ok ds) = Except.ok r) :
    r ≠ "" ∧
    (jsTrim (aggregateDeltas ds) ≠ "" → r = jsTrim (aggregateDeltas ds)) ∧
    (jsTrim (aggregateDeltas ds) = "" → r = defaultReplyText) := by
  have hr : askPsychologistReply ds = r := by
    simp only [askPsychologist] at h
    exact Except.ok.inj h
  by_cases ht : jsTrim (aggregateDeltas ds) = ""
  · have hrd : r = defaultReplyText := by
      rw [← hr]; simp [askPsychologistReply, ht]
    subst hrd
    exact ⟨by decide, fun hc => absurd ht hc, fun _ => rfl⟩
  · have hrt : r = jsTrim (aggregateDeltas ds) := by
      rw [← hr]; simp [askPsychologistReply, ht]
    subst hrt
    exact ⟨ht, fun _ => rfl, fun hc => absurd hc ht⟩

/-- Witness for C9: a stream with real content returns its trimmed
concatenation; a blank-only stream returns the fixed default — both
non-empty. -/
theorem reply_nonblank_or_default_witness :
    askPsychologist (Except.ok [some "Hello ", none, some "there"]) =
      Except.ok "Hello there" ∧
    "Hello there" ≠ "" ∧
    askPsychologist (Except.ok [some "  "]) = Except.ok defaultReplyText ∧
    defaultReplyText ≠ "" := by
  refine ⟨rfl, ?_, rfl, ?_⟩
  · exact (reply_nonblank_or_default [some "Hello ", none, some "there"]
      "Hello there" rfl).1
  · exact (reply_nonblank_or_default [some "  "] defaultReplyText rfl).1

/-! Helper lemmas about the TTS chunking loop. -/

/-- With enough fuel, the chunks concatenate back to the buffer. -/
theorem chunkGo_join (fuel : Nat) :
    ∀ l : List Nat, l.length ≤ fuel → (chunkGo fuel l).flatten = l := by
  induction fuel with
  | zero =>
    intro l hl
    cases l with
    | nil => rfl
    | cons b rest => simp at hl
  | succ n ih =>
    intro l hl
    cases l with
    | nil => rfl
    | cons b rest =>
      simp only [chunkGo, List.flatten_cons]
      rw [ih ((b :: rest).drop 4096) (by simp only [List.length_drop]; simp at hl ⊢; omega)]
      exact List.take_append_drop 4096 (b :: rest)

/-- Every chunk holds at most 4096 bytes. -/
theorem chunkGo_chunk_le (fuel : Nat) :
    ∀ l : List Nat, ∀ c ∈ chunkGo fuel l, c.length ≤ 4096 := by
  induction fuel with
  | zero =>
    intro l c hc
    cases l <;> simp [chunkGo] at hc
  | succ n ih =>
    intro l c hc
    cases l with
    | nil => simp [chunkGo] at hc
    | cons b rest =>
      simp only [chunkGo, List.mem_cons] at hc
      rcases hc with h | h
      · subst h
        simp only [List.length_take]
        omega
      · exact ih _ c h

/-- The chunk list is empty exactly when the buffer is. -/
theorem chunkGo_eq_nil (fuel : Nat) (l : List Nat) (hl : l.length ≤ fuel) :
    chunkGo fuel l = [] ↔ l = [] := by
  cases l with
  | nil => cases fuel <;> simp [chunkGo]
  | cons b rest =>
    cases fuel with
    | zero => simp at hl
    | succ n => simp [chunkGo]

/-- Every chunk before the last holds exactly 4096 bytes. -/
theorem chunkGo_dropLast_full (fuel : Nat) :
    ∀ l : List Nat, l.length ≤ fuel →
      ∀ c ∈ (chunkGo fuel l).dropLast, c.length = 4096 := by
  induction fuel with
  | zero =>
    intro l hl c hc
    cases l with
    | nil => simp [chunkGo] at hc
    | cons b rest => simp at hl
  | succ n ih =>
    intro l hl c hc
    cases l with
    | nil => simp [chunkGo] at hc
    | cons b rest =>
      by_cases hd : (b :: rest).drop 4096 = []
      · simp [chunkGo, hd, chunkGo_eq_nil] at hc
      · have hlen : ((b :: rest).drop 4096).length ≤ n := by
          simp only [List.length_drop]
          simp at hl ⊢
          omega
        have hne : chunkGo n ((b :: rest).drop 4096) ≠ [] := by
          rw [Ne, chunkGo_eq_nil n _ hlen]
          exact hd
        have hgt : 4096 < (b :: rest).length := by
          by_contra hle
          exact hd (List.drop_eq_nil_of_le (by omega))
        cases hrec : chunkGo n ((b :: rest).drop 4096) with
        | nil => exact absurd hrec hne
        | cons c0 cs =>
          simp only [chunkGo, hrec] at hc
          rw [show ((b :: rest).take 4096 :: c0 :: cs).dropLast =
            (b :: rest).take 4096 :: (c0 :: cs).dropLast from rfl] at hc
          rcases List.mem_cons.mp hc with h | h
          · subst h
            simp only [List.length_take]
            omega
          · rw [← hrec] at h
            exact ih _ hlen c h

/-- Claim C10: the TTS chunking of `streamTextToSpeech` is faithful — the
in-order concatenation of the yielded chunks equals the audio buffer
byte-for-byte, every chunk is at most 4096 bytes, and every chunk except
possibly the last is exactly 4096 bytes. -/
theorem tts_chunking_faithful (buf : List Nat) :
    (chunkBuffer buf).flatten = buf ∧
    ((chunkBuffer buf).all fun c => decide (c.length ≤ 4096)) = true ∧
    ((chunkBuffer buf).dropLast.all fun c => decide (c.length = 4096)) = true := by
  refine ⟨chunkGo_join buf.length buf le_rfl, ?_, ?_⟩
  · rw [List.all_eq_true]
    intro c hc
    simpa using chunkGo_chunk_le buf.length buf c hc
  · rw [List.all_eq_true]
    intro c hc
    simpa using chunkGo_dropLast_full buf.length buf le_rfl c hc

end AIPsych
